import Mathlib

/-!
Verification of the Credential & Token Lifecycle Management subsystem of the
voilaPilot backend (Node.js/Express/Mongoose), via a shallow embedding in Lean.

Embedding conventions:
* JavaScript strings are lists of characters (`JStr`), timestamps are `Int`
  milliseconds since the epoch (JS `Date.getTime()`), and Mongo documents are
  plain structures.
* A Mongoose `findOneAndUpdate` with a filter is embedded as a conditional
  pure update on the user document: the filter either matches (update applied
  atomically) or not (`null` result, embedded as an error).  Dotted array
  conditions such as `"apiKeys._id": keyId, "apiKeys.isActive": true` are
  modelled as matching a single array element.
* The bcryptjs library (external dependency, not part of the repository) is
  modelled as an idealized salted one-way hash: a hash value records the salt
  and the exact input it was produced from, and comparison succeeds exactly on
  that input.  This captures bcrypt's functional contract (round-trip, salt
  variation, no collisions); real-world collision resistance is only
  computational.
-/

namespace VoilaPilot

/-- Decidable equality for Except results, so concrete runs of the embedded
operations can be checked by evaluation. -/
instance {ε α : Type} [DecidableEq ε] [DecidableEq α] :
    DecidableEq (Except ε α) := fun a b =>
  match a, b with
  | .error e1, .error e2 =>
    if h : e1 = e2 then isTrue (congrArg Except.error h)
    else isFalse (fun he => h (Except.error.inj he))
  | .error _, .ok _ => isFalse (fun he => Except.noConfusion he)
  | .ok _, .error _ => isFalse (fun he => Except.noConfusion he)
  | .ok a1, .ok a2 =>
    if h : a1 = a2 then isTrue (congrArg Except.ok h)
    else isFalse (fun he => h (Except.ok.inj he))

/-- JavaScript strings, modelled as lists of characters. -/
abbrev JStr := List Char

/-- JavaScript `s.split(sep)` for a one-character separator, from
`apiKeyService.js` line 156 (`key.split("_")`).  `"".split(sep)` is `[""]`. -/
def splitOnChar (sep : Char) : JStr → List JStr
  | [] => [[]]
  | c :: rest =>
    match splitOnChar sep rest with
    | [] => if c = sep then [[], []] else [[c]]
    | p :: ps => if c = sep then [] :: p :: ps else (c :: p) :: ps

/-- JavaScript `s.slice(-n)`: the last `n` characters (the whole string when
it is shorter than `n`). -/
def jsSliceLast (n : Nat) (s : JStr) : JStr := s.drop (s.length - n)

/-- ApiKeyService.maskKey (apiKeyService.js lines 154-164): empty or
non-string input gives `""`; the key is split on `"_"` and anything other
than exactly two parts gives `""`; otherwise the result is
`prefix + "_" + value.substring(0,4) + "*".repeat(35) + value.slice(-4)`. -/
def maskKey (key : JStr) : JStr :=
  if key = [] then []
  else
    match splitOnChar '_' key with
    | [pre, value] =>
      pre ++ ['_'] ++ value.take 4 ++ List.replicate 35 '*' ++ jsSliceLast 4 value
    | _ => []

/-- Character class `[A-Za-z0-9_-]` of the key-format regex
(apiKeyService.js line 145). -/
def isKeyBodyChar (c : Char) : Bool :=
  c.isAlpha || c.isDigit || c = '_' || c = '-'

/-- ApiKeyService.validateKeyFormat (apiKeyService.js lines 144-147): the
regex `^vk_[A-Za-z0-9_-]{43}$`. -/
def validateKeyFormat (key : JStr) : Bool :=
  match key with
  | 'v' :: 'k' :: '_' :: body => body.length == 43 && body.all isKeyBodyChar
  | _ => false

/-- Idealized model of a bcryptjs hash string: the salt together with the
input the hash was derived from.  Distinct salts give distinct hash strings
for the same input, matching `bcrypt.genSalt` producing a fresh salt per
call. -/
structure BcryptHash where
  salt : Nat
  digestOf : JStr
deriving DecidableEq, Repr

/-- Idealized `bcrypt.hash(input, salt)`. -/
def bcryptHash (salt : Nat) (input : JStr) : BcryptHash :=
  { salt := salt, digestOf := input }

/-- Idealized `bcrypt.compare(candidate, hash)`: true exactly when the
candidate is the input the hash was derived from. -/
def bcryptCompare (candidate : JStr) (h : BcryptHash) : Bool :=
  candidate == h.digestOf

/-- ApiKeyService.hashKey (apiKeyService.js lines 101-109): generate a salt,
then bcrypt-hash the key under it.  The fresh salt is passed explicitly. -/
def hashKey (salt : Nat) (key : JStr) : BcryptHash :=
  bcryptHash salt key

/-- The LRU verification cache of apiKeyService.js lines 6-32, keyed by the
(secret, hash) pair that the string `` `${key}:${hashedKey}` `` encodes.
Entries are kept oldest first, mirroring JS `Map` insertion order. -/
structure LRUCache where
  capacity : Nat
  entries : List ((JStr × BcryptHash) × Bool)
deriving DecidableEq, Repr

/-- LRUCache.get (apiKeyService.js lines 12-18): on a hit the entry is
re-inserted at the most recent position. -/
def LRUCache.get (c : LRUCache) (k : JStr × BcryptHash) :
    Option Bool × LRUCache :=
  match c.entries.find? (fun e => e.1 == k) with
  | none => (none, c)
  | some (_, v) =>
    (some v, { c with entries := (c.entries.filter (fun e => e.1 != k)) ++ [(k, v)] })

/-- LRUCache.put (apiKeyService.js lines 20-27): delete an existing entry for
the key, else evict the oldest entry when at capacity, then append. -/
def LRUCache.put (c : LRUCache) (k : JStr × BcryptHash) (v : Bool) : LRUCache :=
  if (c.entries.find? (fun e => e.1 == k)).isSome then
    { c with entries := (c.entries.filter (fun e => e.1 != k)) ++ [(k, v)] }
  else if c.capacity ≤ c.entries.length then
    { c with entries := c.entries.drop 1 ++ [(k, v)] }
  else
    { c with entries := c.entries ++ [(k, v)] }

/-- The fresh verification cache: `new LRUCache(1000)` (apiKeyService.js
line 35). -/
def emptyVerificationCache : LRUCache :=
  { capacity := 1000, entries := [] }

/-- ApiKeyService.verifyKey (apiKeyService.js lines 117-137): consult the
cache, otherwise bcrypt-compare and cache the result.  Returns the result
together with the updated cache. -/
def verifyKey (cache : LRUCache) (key : JStr) (hashedKey : BcryptHash) :
    Bool × LRUCache :=
  match cache.get (key, hashedKey) with
  | (some cached, c) => (cached, c)
  | (none, c) =>
    let result := bcryptCompare key hashedKey
    (result, c.put (key, hashedKey) result)

/-- An embedded API key subdocument (User.js lines 7-50).  All schema
defaults are applied at insertion: `lastUsed` is null, `createdAt` is now,
`expiresAt` is now + 365 days, `isActive` is true.  The plaintext `key`
field is declared with `select: false` but is part of the stored record. -/
structure ApiKey where
  id : Nat
  key : JStr
  name : JStr
  hashedKey : BcryptHash
  lastUsed : Option Int
  createdAt : Int
  expiresAt : Int
  isActive : Bool
deriving DecidableEq, Repr

/-- The apiKeySchema default for `expiresAt` (User.js line 38), applied at
insertion time to any key record that does not carry an explicit expiry:
`() => new Date(Date.now() + 365 * 24 * 60 * 60 * 1000)`. -/
def apiKeyExpiresAtDefault (now : Int) : Int :=
  now + 365 * 24 * 60 * 60 * 1000

/-- The key record that a `$push: { apiKeys: { key, name, hashedKey } }`
inserts, with the schema defaults of User.js lines 26-45 filled in. -/
def mkApiKey (now : Int) (id : Nat) (key name : JStr) (hashedKey : BcryptHash) :
    ApiKey :=
  { id := id, key := key, name := name, hashedKey := hashedKey,
    lastUsed := none, createdAt := now,
    expiresAt := apiKeyExpiresAtDefault now, isActive := true }

/-- The key subdocument as it is returned from a default read: every field
except the `select: false` plaintext `key`. -/
structure ApiKeyInfo where
  id : Nat
  name : JStr
  hashedKey : BcryptHash
  lastUsed : Option Int
  createdAt : Int
  expiresAt : Int
  isActive : Bool
deriving DecidableEq, Repr

/-- Project a stored key record to its default-read form (drop the
plaintext). -/
def ApiKey.info (k : ApiKey) : ApiKeyInfo :=
  { id := k.id, name := k.name, hashedKey := k.hashedKey,
    lastUsed := k.lastUsed, createdAt := k.createdAt,
    expiresAt := k.expiresAt, isActive := k.isActive }

/-- The persisted user document fields relevant to the key ledger and the
TrueLayer token rotation (User.js lines 123-215). -/
structure UserDoc where
  apiKeys : List ApiKey
  apiKeyCount : Nat
  tlAccessToken : Option JStr
  tlRefreshToken : Option JStr
  tlExpiresAt : Option Int
  tlConnected : Bool
  tlTokenVersion : Nat
deriving DecidableEq, Repr

/-- A fresh user: schema defaults (empty key array, count 0, no tokens,
not connected, token version 0). -/
def freshUser : UserDoc :=
  { apiKeys := [], apiKeyCount := 0, tlAccessToken := none,
    tlRefreshToken := none, tlExpiresAt := none, tlConnected := false,
    tlTokenVersion := 0 }

/-- Number of stored keys with `isActive = true`. -/
def activeCount (db : UserDoc) : Nat :=
  (db.apiKeys.filter (fun k => k.isActive)).length

/-- Subdocument validation run by `runValidators: true` on the pushed key
(User.js lines 14-20): the name is required and at most 50 characters. -/
def validName (name : JStr) : Prop :=
  name ≠ [] ∧ name.length ≤ 50

instance (name : JStr) : Decidable (validName name) := by
  unfold validName; infer_instance

/-- Failure modes of userSchema.methods.addApiKey: the stale-read precheck
`this.apiKeyCount >= 5` throws "Maximum number of API keys reached"
(limitReached); hashKey throws "Failed to hash API key" when bcryptjs
rejects its input (hashFailed); subdocument validation could reject the
pushed key (validationFailed); an unmatched conditional filter
`apiKeyCount: { $lt: 5 }` would make `findOneAndUpdate` return null and
throw "Failed to add API key" (writeFailed).  The last two live only in the
dead remainder of the method, see addApiKey. -/
inductive IssueError
  | limitReached
  | hashFailed
  | validationFailed
  | writeFailed
deriving DecidableEq, Repr

/-- A JavaScript value reaching bcrypt: a proper string, or the Promise
object obtained by calling an async function without await. -/
inductive JsValue
  | str (s : JStr)
  | promiseObject
deriving DecidableEq, Repr

/-- The value of the call `ApiKeyService.generateKey()` at User.js line 345
(identically apiKeyMethods.js line 14): generateKey is a static ASYNC
function and the call site does not await it, so the bound value is a
Promise object, never the generated secret string. -/
def generateKeyUnawaited : JsValue := .promiseObject

/-- ApiKeyService.hashKey applied to a JavaScript value: bcryptjs (^2.4.3)
validates its input and rejects anything that is not a string ("Illegal
arguments"), which hashKey's catch rethrows as "Failed to hash API key"
(apiKeyService.js lines 101-109). -/
def hashKeyJs (salt : Nat) : JsValue → Except IssueError BcryptHash
  | .str s => .ok (hashKey salt s)
  | .promiseObject => .error .hashFailed

/-- userSchema.methods.addApiKey (User.js lines 336-376, identically
apiKeyMethods.js lines 5-45).  `docCount` is the possibly stale in-memory
`this.apiKeyCount` the caller's document holds; `db` is the stored document
the conditional update would run against.  After the precheck the method
binds the unawaited `generateKey()` Promise and feeds it to hashKey, which
always fails, so every call past the precheck throws "Failed to hash API
key" before the conditional `$push`: the match's ok branch below transcribes
the source's conditional insert (subdocument validation, filter
`apiKeyCount < 5`, `$push` of the record plus `$inc` of the count, plaintext
and new id returned) but is dead code.  `now`, `newId`, `salt`, `name` and
`key` record the call context that dead path would have used. -/
def addApiKey (now : Int) (newId salt : Nat) (name key : JStr)
    (docCount : Nat) (db : UserDoc) :
    Except IssueError ((JStr × Nat) × UserDoc) :=
  if 5 ≤ docCount then
    .error .limitReached
  else
    match hashKeyJs salt generateKeyUnawaited with
    | .error e => .error e
    | .ok hashedKey =>
      if ¬ validName name then
        .error .validationFailed
      else if db.apiKeyCount < 5 then
        .ok ((key, newId),
          { db with
            apiKeys := db.apiKeys ++ [mkApiKey now newId key name hashedKey],
            apiKeyCount := db.apiKeyCount + 1 })
      else
        .error .writeFailed

/-- Failure mode of userSchema.methods.deactivateApiKey: a single error,
"API key not found or already deactivated", for every unmatched filter. -/
inductive RevokeError
  | notFoundOrInactive
deriving DecidableEq, Repr

/-- The positional `$set: { "apiKeys.$.isActive": false }`: flip the first
array element matching the filter (`_id = keyId` and `isActive = true`). -/
def setInactive (keyId : Nat) : List ApiKey → List ApiKey
  | [] => []
  | k :: rest =>
    if k.id == keyId && k.isActive then
      { k with isActive := false } :: rest
    else
      k :: setInactive keyId rest

/-- userSchema.methods.deactivateApiKey (User.js lines 420-453, identically
apiKeyMethods.js lines 63-96): a conditional update matching a key with the
given id that is still active; on a match the key is flipped inactive and
`user.apiKeys.id(keyId)` of the updated document is returned (a default
read, so without the plaintext).  There is no condition on `expiresAt` and
no distinct not-found/already-inactive errors. -/
def deactivateApiKey (keyId : Nat) (db : UserDoc) :
    Except RevokeError (ApiKeyInfo × UserDoc) :=
  if db.apiKeys.any (fun k => k.id == keyId && k.isActive) then
    match (setInactive keyId db.apiKeys).find? (fun k => k.id == keyId) with
    | some k => .ok (k.info, { db with apiKeys := setInactive keyId db.apiKeys })
    | none => .error .notFoundOrInactive
  else
    .error .notFoundOrInactive

/-- The token payload of a TrueLayer token response (`access_token`,
`refresh_token`, `expires_in` seconds). -/
structure TLTokens where
  accessToken : JStr
  refreshToken : JStr
  expiresIn : Int
deriving DecidableEq, Repr

/-- Failure modes of userSchema.methods.updateTrueLayerTokens: the
`runValidators` check on `trueLayerTokenExpiresAt` ("Token expiration date
must be in the future", User.js lines 179-184) and the unmatched version
filter ("Token update failed due to concurrent modification"). -/
inductive CommitError
  | validationFailed
  | concurrentModification
deriving DecidableEq, Repr

/-- userSchema.methods.updateTrueLayerTokens (User.js lines 294-334):
one conditional update filtered on `trueLayerTokenVersion` equal to the
version the rotation read (`readVersion`, the in-memory
`this.trueLayerTokenVersion`), setting the token pair,
`expiresAt = now + expires_in * 1000` and `connected = true` while
incrementing the version. -/
def updateTrueLayerTokens (now : Int) (readVersion : Nat) (tokens : TLTokens)
    (db : UserDoc) : Except CommitError UserDoc :=
  if now + tokens.expiresIn * 1000 ≤ now then
    .error .validationFailed
  else if db.tlTokenVersion = readVersion then
    .ok { db with
      tlAccessToken := some tokens.accessToken,
      tlRefreshToken := some tokens.refreshToken,
      tlExpiresAt := some (now + tokens.expiresIn * 1000),
      tlConnected := true,
      tlTokenVersion := db.tlTokenVersion + 1 }
  else
    .error .concurrentModification

/-- Predicate of the pre-save filter (User.js line 62): key past its
expiry. -/
def keyExpired (now : Int) (k : ApiKey) : Bool :=
  decide (k.expiresAt < now)

/-- Predicate of the pre-save filter (User.js lines 63-64): key last used
more than 90 days ago (keys never used do not count as unused). -/
def keyUnused (now : Int) (k : ApiKey) : Bool :=
  match k.lastUsed with
  | some lu => decide (now - lu > 90 * 24 * 60 * 60 * 1000)
  | none => false

/-- The apiKeySchema pre-save cleanup (User.js lines 57-73): drop expired or
stale keys and resynchronize `apiKeyCount` to the number of remaining keys.
The static `cleanupExpiredKeys` (User.js lines 76-121) performs the same
removal and resynchronization across users via `$pull` and an aggregation. -/
def preSaveClean (now : Int) (db : UserDoc) : UserDoc :=
  { db with
    apiKeys := db.apiKeys.filter (fun k => !keyExpired now k && !keyUnused now k),
    apiKeyCount :=
      (db.apiKeys.filter (fun k => !keyExpired now k && !keyUnused now k)).length }

/-- One ledger step, as serialized by the store: an addApiKey call
(carrying the caller's possibly stale `docCount` read), the conditional
flip of deactivateApiKey, or a cleanup pass.  Concurrent calls are modelled
as an arbitrary interleaving, i.e. an arbitrary list of these steps. -/
inductive LedgerOp
  | issue (now : Int) (newId salt : Nat) (name key : JStr) (docCount : Nat)
  | revoke (keyId : Nat)
  | clean (now : Int)

/-- Apply one ledger step to the stored document; a failed conditional
write leaves the document unchanged. -/
def applyLedgerOp (db : UserDoc) : LedgerOp → UserDoc
  | .issue now newId salt name key docCount =>
    match addApiKey now newId salt name key docCount db with
    | .ok (_, db2) => db2
    | .error _ => db
  | .revoke keyId =>
    match deactivateApiKey keyId db with
    | .ok (_, db2) => db2
    | .error _ => db
  | .clean now => preSaveClean now db

/-- The stored-count invariant maintained by the ledger: the persisted
`apiKeyCount` dominates the number of stored keys and never passes 5. -/
def ledgerInv (db : UserDoc) : Prop :=
  db.apiKeys.length ≤ db.apiKeyCount ∧ db.apiKeyCount ≤ 5

instance (db : UserDoc) : Decidable (ledgerInv db) := by
  unfold ledgerInv; infer_instance

/-- The per-call data of one of N concurrent issue calls on a fresh user:
each call read the fresh document, so its stale `this.apiKeyCount` is 0. -/
structure IssueReq where
  now : Int
  newId : Nat
  salt : Nat
  name : JStr
  key : JStr
deriving Repr

/-- Serialize N concurrent issue calls on a fresh user: each call passed its
stale precheck (count read as 0) and the calls execute against the store in
some order; returns how many succeeded together with the final document. -/
def runConcurrentIssues : List IssueReq → UserDoc → Nat × UserDoc
  | [], db => (0, db)
  | r :: rest, db =>
    match addApiKey r.now r.newId r.salt r.name r.key 0 db with
    | .ok (_, db2) =>
      ((runConcurrentIssues rest db2).1 + 1, (runConcurrentIssues rest db2).2)
    | .error _ => runConcurrentIssues rest db

/-- The error object built by TrueLayerService.createTrueLayerError
(truelayerService.js): a fresh Error whose `statusCode` is the original
error's `response?.status` (500 when absent).  Crucially it carries no
`response` property of its own, which `responseStatus` records. -/
structure TLError where
  message : String
  statusCode : Nat
  responseStatus : Option Nat
deriving DecidableEq, Repr

/-- TrueLayerService.createTrueLayerError, applied to an original error
whose `response?.status` is `origStatus`. -/
def createTrueLayerError (message : String) (origStatus : Option Nat) : TLError :=
  { message := message, statusCode := origStatus.getD 500,
    responseStatus := none }

/-- Outcome of the single upstream refresh-grant POST, as the axios error
surfaces it to TrueLayerService.refreshTokens after the response
interceptor rethrows: a token payload, an HTTP error with a status, or a
transport failure with no response. -/
inductive UpstreamOutcome
  | success (tokens : TLTokens)
  | httpError (status : Nat)
  | networkError
deriving Repr

/-- TrueLayerService.refreshTokens (truelayerService.js lines 528-548):
posts the refresh grant once; any failure is wrapped by
createTrueLayerError, which drops the axios `response` property. -/
def refreshTokens (upstream : UpstreamOutcome) : Except TLError TLTokens :=
  match upstream with
  | .success t => .ok t
  | .httpError s =>
    .error (createTrueLayerError "Failed to refresh TrueLayer tokens" (some s))
  | .networkError =>
    .error (createTrueLayerError "Failed to refresh TrueLayer tokens" none)

/-- TrueLayerService.validateAndRefreshTokens (truelayerService.js lines
481-521).  `upstream` is what the provider would answer if the refresh grant
is posted.  The result carries the number of upstream refresh calls
performed (0 or 1).  The catch block inspects `error.response?.status` of
the error thrown by refreshTokens; an absent or unparseable stored expiry is
folded into the "Invalid token expiration date" branch. -/
def validateAndRefreshTokens (now : Int) (upstream : UpstreamOutcome)
    (user : UserDoc) : Except TLError (TLTokens × Nat) :=
  match user.tlAccessToken, user.tlRefreshToken with
  | some access, some refresh =>
    match user.tlExpiresAt with
    | none =>
      .error (createTrueLayerError "Invalid token expiration date" none)
    | some expiresAt =>
      if expiresAt ≤ now + 5 * 60 * 1000 then
        match refreshTokens upstream with
        | .ok t => .ok (t, 1)
        | .error e =>
          if e.responseStatus = some 400 then
            .error (createTrueLayerError "Invalid refresh token" e.responseStatus)
          else if e.responseStatus = some 401 then
            .error (createTrueLayerError
              "TrueLayer connection expired. Please reconnect your account."
              e.responseStatus)
          else
            .error e
      else
        .ok ({ accessToken := access, refreshToken := refresh,
               expiresIn := (expiresAt - now) / 1000 }, 0)
  | _, _ =>
    .error (createTrueLayerError "User not properly connected to TrueLayer" none)

/-- The axios request config as seen by the response interceptor; the
`_retry` property is absent (`undefined`) on a request that has never been
retried. -/
structure AxiosConfig where
  retryCount : Option Nat
deriving DecidableEq, Repr

/-- The axios error object handed to TrueLayerService.handleApiError:
`error.config`, `error.response?.status`, and whether
`error.code === "ECONNABORTED"`. -/
structure AxiosError where
  cfg : Option AxiosConfig
  responseStatus : Option Nat
  isTimeout : Bool
deriving DecidableEq, Repr

/-- The `shouldRetry` disjunction of handleApiError (truelayerService.js
lines 378-384): 5xx status, timeout code, or no response at all. -/
def axiosShouldRetry (e : AxiosError) : Bool :=
  (match e.responseStatus with
   | some s => decide (500 ≤ s)
   | none => false)
  || e.isTimeout
  || e.responseStatus.isNone

/-- Result of one pass through handleApiError: either the request is
re-issued after a backoff delay (with the incremented `_retry` counter), or
the error is surfaced (clearing the service-token cache when the status
was 401). -/
inductive HandleOutcome
  | retried (newRetryCount delayMs : Nat)
  | surfaced (cacheCleared : Bool)
deriving DecidableEq, Repr

/-- TrueLayerService.handleApiError (truelayerService.js lines 375-416).
The retry guard is `axiosConfig?._retry < config.trueLayer.retryAttempts`;
in JavaScript that comparison is false whenever `_retry` is undefined, so a
request whose config lacks the counter is never retried.  When a retry
happens the counter becomes `(_retry || 0) + 1 = r + 1` and the delay is
`2 ** (r + 1) * 1000` milliseconds. -/
def handleApiError (retryAttempts : Nat) (e : AxiosError) : HandleOutcome :=
  match e.cfg with
  | some c =>
    match c.retryCount with
    | some r =>
      if axiosShouldRetry e && decide (r < retryAttempts) then
        .retried (r + 1) (2 ^ (r + 1) * 1000)
      else
        .surfaced (e.responseStatus == some 401)
    | none => .surfaced (e.responseStatus == some 401)
  | none => .surfaced (e.responseStatus == some 401)

/-- A 43-character key body for concrete checks: distinct leading character,
then filler, then a distinct tail. -/
def sampleBody : JStr :=
  ['Q', 'B', 'C', 'D'] ++ List.replicate 35 'E' ++ ['W', 'X', 'Y', 'Z']

/-- A well-formed generated secret built over the sample body. -/
def sampleKey : JStr := 'v' :: 'k' :: '_' :: sampleBody

/-- A sample display name for issued keys. -/
def sampleName : JStr := ['C', 'I']

/-- A stored key record that is already past its expiry but still active. -/
def wExpiredKey : ApiKey :=
  { id := 7, key := sampleKey, name := sampleName,
    hashedKey := bcryptHash 0 sampleKey, lastUsed := none, createdAt := 0,
    expiresAt := 10, isActive := true }

/-- A user holding only the expired-but-active key. -/
def wExpiredDb : UserDoc :=
  { freshUser with apiKeys := [wExpiredKey], apiKeyCount := 1 }

/-- An active stored key with a given id, used to build concrete ledgers. -/
def wKey (i : Nat) : ApiKey :=
  { id := i, key := sampleKey, name := sampleName,
    hashedKey := bcryptHash i sampleKey, lastUsed := none, createdAt := 0,
    expiresAt := 1000, isActive := true }

/-- A user at the key limit: five active keys, synchronized count 5. -/
def wDb5 : UserDoc :=
  { freshUser with
    apiKeys := [wKey 1, wKey 2, wKey 3, wKey 4, wKey 5],
    apiKeyCount := 5 }

/-- Ten concurrent issue requests against a fresh user (each one's stale
count read is 0). -/
def wReqs : List IssueReq :=
  (List.range 10).map
    (fun i => { now := 0, newId := i, salt := i, name := sampleName, key := sampleKey })

/-- The same ten concurrent issues as serialized ledger steps. -/
def wOps : List LedgerOp :=
  wReqs.map (fun r => .issue r.now r.newId r.salt r.name r.key 0)

/-- A user connected to TrueLayer whose access token expires at the given
instant. -/
def wTLUser (expiresAt : Int) : UserDoc :=
  { freshUser with
    tlAccessToken := some ['a'], tlRefreshToken := some ['r'],
    tlExpiresAt := some expiresAt, tlConnected := true, tlTokenVersion := 3 }

/-- A sample upstream token payload. -/
def wTokens : TLTokens :=
  { accessToken := ['n', 'a'], refreshToken := ['n', 'r'], expiresIn := 3600 }

/-! Theorems. -/

/-- If overwriting position i leaves the list unchanged, the overwritten
character was already stored there. -/
lemma list_get_of_set_eq :
    ∀ {l : JStr} {i : Nat} {c : Char}, (hi : i < l.length) →
      l.set i c = l → l[i] = c
  | [], i, c, hi, _ => absurd hi (by simp)
  | a :: tl, 0, c, _, h => by
    simp only [List.set] at h
    injection h with h1 h2
    simp [h1]
  | a :: tl, i + 1, c, hi, h => by
    simp only [List.set] at h
    injection h with h1 h2
    have ih := list_get_of_set_eq (l := tl) (i := i) (by simpa using hi) h2
    simpa using ih

/-- Overwriting position i of a list with a character different from the one
stored there yields a different list. -/
lemma list_set_ne_self {l : JStr} {i : Nat} {c : Char} (hi : i < l.length)
    (hc : c ≠ l[i]) : l.set i c ≠ l := by
  intro h
  exact hc (list_get_of_set_eq hi h).symm

/-- C4: for every generated secret, verify(secret, hash(secret)) returns
true under any salt; two hash calls under different salts produce different
hash values yet both verify against the same secret; and a secret mutated in
a single character at any position fails verification against the original's
hash.  Verification is run against a fresh verification cache. -/
theorem c4_hash_verify_roundtrip (salt salt2 : Nat) (key : JStr) (i : Nat)
    (c : Char) (hsalt : salt ≠ salt2) (hi : i < key.length)
    (hc : c ≠ key[i]) :
    (verifyKey emptyVerificationCache key (hashKey salt key)).1 = true
    ∧ hashKey salt key ≠ hashKey salt2 key
    ∧ (verifyKey emptyVerificationCache key (hashKey salt2 key)).1 = true
    ∧ (verifyKey emptyVerificationCache (key.set i c) (hashKey salt key)).1
        = false := by
  refine ⟨?_, ?_, ?_, ?_⟩
  · simp [verifyKey, LRUCache.get, emptyVerificationCache, bcryptCompare,
      hashKey, bcryptHash]
  · simp only [hashKey, bcryptHash, ne_eq, BcryptHash.mk.injEq, not_and]
    intro h
    exact absurd h hsalt
  · simp [verifyKey, LRUCache.get, emptyVerificationCache, bcryptCompare,
      hashKey, bcryptHash]
  · simp only [verifyKey, LRUCache.get, emptyVerificationCache,
      List.find?_nil, bcryptCompare, hashKey, bcryptHash]
    simp only [beq_eq_false_iff_ne, ne_eq]
    exact list_set_ne_self hi hc

/-- Closed instance of c4_hash_verify_roundtrip at concrete inputs. -/
theorem c4_hash_verify_roundtrip_witness :
    (verifyKey emptyVerificationCache ['a', 'b'] (hashKey 0 ['a', 'b'])).1 = true
    ∧ hashKey 0 ['a', 'b'] ≠ hashKey 1 ['a', 'b']
    ∧ (verifyKey emptyVerificationCache ['a', 'b'] (hashKey 1 ['a', 'b'])).1 = true
    ∧ (verifyKey emptyVerificationCache (['a', 'b'].set 0 'z')
        (hashKey 0 ['a', 'b'])).1 = false :=
  c4_hash_verify_roundtrip 0 1 ['a', 'b'] 0 'z' (by decide) (by decide) (by decide)

/-- C8 counterexample: maskKey reveals the first four characters of the key
body as well, so a body character outside the prefix and the last four
appears verbatim in the masked output. -/
theorem c8_counterexample :
    validateKeyFormat sampleKey = true
    ∧ 'Q' ∈ maskKey sampleKey
    ∧ 'Q' ∉ ['v', 'k', '_']
    ∧ 'Q' ∉ jsSliceLast 4 sampleBody
    ∧ 'Q' ≠ '*' := by decide

/-- Splitting a string that does not contain the separator returns the
string as the single fragment. -/
lemma splitOnChar_of_not_mem {sep : Char} :
    ∀ {s : JStr}, sep ∉ s → splitOnChar sep s = [s]
  | [], _ => rfl
  | c :: rest, h => by
    have hc : ¬ c = sep := fun he => h (he ▸ List.mem_cons_self c rest)
    have ih : splitOnChar sep rest = [rest] :=
      splitOnChar_of_not_mem (fun hm => h (List.mem_cons_of_mem c hm))
    simp [splitOnChar, ih, hc]

/-- C8 amended: for every well-formed secret whose 43-character body does
not itself contain the separator, maskKey reveals the prefix, the FIRST
four and the last four characters of the body, replacing the middle 35
characters with filler. -/
theorem c8_mask_amended (body : JStr) (_hlen : body.length = 43)
    (hus : '_' ∉ body) :
    maskKey ('v' :: 'k' :: '_' :: body)
      = 'v' :: 'k' :: '_' ::
          (body.take 4 ++ List.replicate 35 '*' ++ jsSliceLast 4 body) := by
  have hsplit : splitOnChar '_' ('v' :: 'k' :: '_' :: body)
      = [['v', 'k'], body] := by
    simp [splitOnChar, splitOnChar_of_not_mem hus]
  have hne : ('v' :: 'k' :: '_' :: body : JStr) ≠ [] := by simp
  simp [maskKey, hsplit, hne]

/-- Closed instance of c8_mask_amended at the sample key. -/
theorem c8_mask_amended_witness :
    maskKey ('v' :: 'k' :: '_' :: sampleBody)
      = 'v' :: 'k' :: '_' ::
          (sampleBody.take 4 ++ List.replicate 35 '*' ++ jsSliceLast 4 sampleBody) :=
  c8_mask_amended sampleBody (by decide) (by decide)

/-- Issue calls whose stale count read is below the limit pass the precheck
and then always fail at the hashing step: the unawaited generateKey()
Promise is rejected by bcrypt. -/
lemma addApiKey_hashFailed (now : Int) (newId salt : Nat) (name key : JStr)
    {docCount : Nat} (hdoc : docCount < 5) (db : UserDoc) :
    addApiKey now newId salt name key docCount db = .error .hashFailed := by
  have h5 : ¬ (5 ≤ docCount) := by omega
  simp [addApiKey, h5, hashKeyJs, generateKeyUnawaited]

/-- No issue call ever succeeds: each one throws at the precheck or at the
hashing step, always before the conditional insert. -/
lemma addApiKey_never_ok (now : Int) (newId salt : Nat) (name key : JStr)
    (docCount : Nat) (db : UserDoc) (res : (JStr × Nat) × UserDoc) :
    addApiKey now newId salt name key docCount db ≠ .ok res := by
  intro h
  rcases Nat.lt_or_ge docCount 5 with hlt | hge
  · rw [addApiKey_hashFailed now newId salt name key hlt db] at h
    exact Except.noConfusion h
  · unfold addApiKey at h
    rw [if_pos hge] at h
    exact Except.noConfusion h

/-- C9 counterexample: the schema default that governs an inserted key
record computes creation + 365 days, not creation + 90 days; and the
issuing call never creates a key at all, failing at the hashing step. -/
theorem c9_counterexample :
    apiKeyExpiresAtDefault 0 = 365 * 24 * 60 * 60 * 1000
    ∧ apiKeyExpiresAtDefault 0 ≠ 90 * 24 * 60 * 60 * 1000
    ∧ addApiKey 0 2 1 sampleName sampleKey 0 freshUser
        = .error .hashFailed := by decide

/-- C9 amended: the schema default gives any inserted key record an expiry
of exactly creation + 365 days (so in particular never more than 365 days;
issue accepts no TTL argument); moreover issue itself never stores a key,
since every call past its precheck fails at the hashing step on the
unawaited generateKey() Promise. -/
theorem c9_ttl_amended (now : Int) :
    apiKeyExpiresAtDefault now = now + 365 * 24 * 60 * 60 * 1000
    ∧ apiKeyExpiresAtDefault now - now ≤ 365 * 24 * 60 * 60 * 1000
    ∧ (∀ (newId salt : Nat) (name key : JStr) (docCount : Nat)
        (db : UserDoc) (res : (JStr × Nat) × UserDoc),
        addApiKey now newId salt name key docCount db ≠ .ok res) := by
  refine ⟨rfl, ?_, ?_⟩
  · unfold apiKeyExpiresAtDefault
    omega
  · intro newId salt name key docCount db res
    exact addApiKey_never_ok now newId salt name key docCount db res

/-- Closed instance of c9_ttl_amended at creation time 0. -/
theorem c9_ttl_amended_witness :
    apiKeyExpiresAtDefault 0 = 0 + 365 * 24 * 60 * 60 * 1000
    ∧ apiKeyExpiresAtDefault 0 - 0 ≤ 365 * 24 * 60 * 60 * 1000
    ∧ (∀ (newId salt : Nat) (name key : JStr) (docCount : Nat)
        (db : UserDoc) (res : (JStr × Nat) × UserDoc),
        addApiKey 0 newId salt name key docCount db ≠ .ok res) :=
  c9_ttl_amended 0

/-- C3 (code bug): the issuing call never returns the plaintext secret to
the caller and never stores a key record, at any input: every call past the
count precheck fails with the "Failed to hash API key" error, because the
static async generateKey() is called without await and bcrypt rejects the
resulting Promise object before the conditional insert runs. -/
theorem c3_issue_never_returns_secret (now : Int) (newId salt : Nat)
    (name key : JStr) (docCount : Nat) (db : UserDoc)
    (res : (JStr × Nat) × UserDoc) :
    addApiKey now newId salt name key docCount db ≠ .ok res
    ∧ (docCount < 5 →
        addApiKey now newId salt name key docCount db
          = .error .hashFailed) := by
  constructor
  · exact addApiKey_never_ok now newId salt name key docCount db res
  · intro hdoc
    exact addApiKey_hashFailed now newId salt name key hdoc db

/-- Closed instance of c3_issue_never_returns_secret at a concrete issue
call on a fresh user. -/
theorem c3_issue_never_returns_secret_witness :
    addApiKey 0 1 0 sampleName sampleKey 0 freshUser
      ≠ .ok ((sampleKey, 1), freshUser)
    ∧ ((0 : Nat) < 5 →
        addApiKey 0 1 0 sampleName sampleKey 0 freshUser
          = .error .hashFailed) :=
  c3_issue_never_returns_secret 0 1 0 sampleName sampleKey 0 freshUser
    ((sampleKey, 1), freshUser)

/-- C7 counterexample: revoking an expired-but-active key succeeds instead
of failing with an Expired error, and a missing key id produces the very
same single error as an already-inactive key, so the three claimed failure
kinds are not distinguished. -/
theorem c7_counterexample :
    wExpiredKey.expiresAt < 100
    ∧ wExpiredKey.isActive = true
    ∧ deactivateApiKey 7 wExpiredDb
        = .ok (ApiKey.info { wExpiredKey with isActive := false },
            { wExpiredDb with apiKeys := [{ wExpiredKey with isActive := false }] })
    ∧ deactivateApiKey 99 wExpiredDb = .error .notFoundOrInactive
    ∧ deactivateApiKey 7
        { wExpiredDb with apiKeys := [{ wExpiredKey with isActive := false }] }
        = .error .notFoundOrInactive := by decide

/-- Flipping one key inactive does not change how many keys are stored. -/
lemma setInactive_length (keyId : Nat) :
    ∀ l : List ApiKey, (setInactive keyId l).length = l.length
  | [] => rfl
  | k :: rest => by
    unfold setInactive
    split
    · simp
    · simp [setInactive_length keyId rest]

/-- After the positional flip, looking the key id up in the updated array
finds an inactive record with that id, provided some active record with the
id existed. -/
lemma setInactive_find {keyId : Nat} :
    ∀ {l : List ApiKey},
      l.any (fun k => k.id == keyId && k.isActive) = true →
      ∃ k, (setInactive keyId l).find? (fun k => k.id == keyId) = some k
        ∧ k.id = keyId ∧ k.isActive = false
  | [], h => by simp at h
  | k :: rest, h => by
    unfold setInactive
    by_cases hk : (k.id == keyId && k.isActive) = true
    · rw [if_pos hk]
      simp only [Bool.and_eq_true, beq_iff_eq] at hk
      refine ⟨{ k with isActive := false }, ?_, hk.1, rfl⟩
      rw [List.find?_cons_of_pos]
      simpa using hk.1
    · rw [if_neg hk]
      by_cases hid : k.id = keyId
      · have hact : k.isActive = false := by
          rcases Bool.eq_false_or_eq_true k.isActive with ha | ha
          · exact absurd (by simp [hid, ha]) hk
          · exact ha
        refine ⟨k, ?_, hid, hact⟩
        rw [List.find?_cons_of_pos]
        simpa using hid
      · have hrest : rest.any (fun k => k.id == keyId && k.isActive) = true := by
          rcases List.any_eq_true.mp h with ⟨x, hx, hpx⟩
          rcases List.mem_cons.mp hx with rfl | hx2
          · exact absurd hpx hk
          · exact List.any_eq_true.mpr ⟨x, hx2, hpx⟩
        rcases setInactive_find (l := rest) hrest with ⟨k2, hfind, hkid, hkact⟩
        refine ⟨k2, ?_, hkid, hkact⟩
        rw [List.find?_cons_of_neg]
        · exact hfind
        · simpa using hid

/-- The positional flip removes exactly one record from the active set,
provided some active record with the id existed. -/
lemma setInactive_activeCount {keyId : Nat} :
    ∀ {l : List ApiKey},
      l.any (fun k => k.id == keyId && k.isActive) = true →
      ((setInactive keyId l).filter (fun k => k.isActive)).length + 1
        = (l.filter (fun k => k.isActive)).length
  | [], h => by simp at h
  | k :: rest, h => by
    unfold setInactive
    by_cases hk : (k.id == keyId && k.isActive) = true
    · rw [if_pos hk]
      simp only [Bool.and_eq_true, beq_iff_eq] at hk
      simp [List.filter_cons, hk.2]
    · rw [if_neg hk]
      have hrest : rest.any (fun k => k.id == keyId && k.isActive) = true := by
        rcases List.any_eq_true.mp h with ⟨x, hx, hpx⟩
        rcases List.mem_cons.mp hx with rfl | hx2
        · exact absurd hpx hk
        · exact List.any_eq_true.mpr ⟨x, hx2, hpx⟩
      have ih := setInactive_activeCount (l := rest) hrest
      rcases Bool.eq_false_or_eq_true k.isActive with ha | ha
      · simp [List.filter_cons, ha, ih]
      · simp [List.filter_cons, ha]
        omega

/-- C7 amended: revoke fails with the single "not found or already
deactivated" error exactly when the user holds no active key with the given
id (missing and already-inactive keys are not distinguished, and expiry is
not consulted, so an expired-but-active key is revoked normally).  On
success the matching key is flipped inactive in one conditional update, the
stored count is untouched, the active set shrinks by one, and the key's
default-read metadata (without the plaintext secret) is returned with the
requested id and `isActive = false`. -/
theorem c7_revoke_amended (db : UserDoc) (keyId : Nat) :
    (db.apiKeys.any (fun k => k.id == keyId && k.isActive) = false →
      deactivateApiKey keyId db = .error .notFoundOrInactive)
    ∧ (db.apiKeys.any (fun k => k.id == keyId && k.isActive) = true →
      ∃ info, deactivateApiKey keyId db
          = .ok (info, { db with apiKeys := setInactive keyId db.apiKeys })
        ∧ info.id = keyId
        ∧ info.isActive = false
        ∧ ({ db with apiKeys := setInactive keyId db.apiKeys } : UserDoc).apiKeyCount
            = db.apiKeyCount
        ∧ activeCount { db with apiKeys := setInactive keyId db.apiKeys } + 1
            = activeCount db) := by
  constructor
  · intro hno
    unfold deactivateApiKey
    rw [hno]
    simp
  · intro hyes
    rcases setInactive_find (l := db.apiKeys) hyes with ⟨k, hfind, hid, hact⟩
    refine ⟨k.info, ?_, hid, hact, rfl, ?_⟩
    · unfold deactivateApiKey
      rw [hyes, hfind]
      simp
    · exact setInactive_activeCount hyes

/-- Closed instance of the success half of c7_revoke_amended: the
expired-but-active sample key is revoked. -/
theorem c7_revoke_amended_witness :
    ∃ info, deactivateApiKey 7 wExpiredDb
        = .ok (info, { wExpiredDb with apiKeys := setInactive 7 wExpiredDb.apiKeys })
      ∧ info.id = 7
      ∧ info.isActive = false
      ∧ ({ wExpiredDb with apiKeys := setInactive 7 wExpiredDb.apiKeys } : UserDoc).apiKeyCount
          = wExpiredDb.apiKeyCount
      ∧ activeCount { wExpiredDb with apiKeys := setInactive 7 wExpiredDb.apiKeys } + 1
          = activeCount wExpiredDb :=
  (c7_revoke_amended wExpiredDb 7).2 (by decide)

/-- C2: a commit against the version the rotation read persists the token
pair, the recomputed expiry `now + expires_in` seconds, and the connected
flag, in one conditional update that increments the version by 1; and any
second commit started from that same version then fails with the
concurrent-modification error, so of two concurrent commits from the same
version exactly one succeeds (a failed conditional update changes no stored
field). -/
theorem c2_commit_optimistic_concurrency (db : UserDoc) (v : Nat)
    (now1 now2 : Int) (t1 t2 : TLTokens) (hv : db.tlTokenVersion = v)
    (h1 : 0 < t1.expiresIn) (h2 : 0 < t2.expiresIn) :
    updateTrueLayerTokens now1 v t1 db
      = .ok { db with
          tlAccessToken := some t1.accessToken,
          tlRefreshToken := some t1.refreshToken,
          tlExpiresAt := some (now1 + t1.expiresIn * 1000),
          tlConnected := true,
          tlTokenVersion := v + 1 }
    ∧ (∀ db1, updateTrueLayerTokens now1 v t1 db = .ok db1 →
        updateTrueLayerTokens now2 v t2 db1 = .error .concurrentModification) := by
  have hval1 : ¬ (now1 + t1.expiresIn * 1000 ≤ now1) := by omega
  have hok : updateTrueLayerTokens now1 v t1 db
      = .ok { db with
          tlAccessToken := some t1.accessToken,
          tlRefreshToken := some t1.refreshToken,
          tlExpiresAt := some (now1 + t1.expiresIn * 1000),
          tlConnected := true,
          tlTokenVersion := v + 1 } := by
    unfold updateTrueLayerTokens
    rw [if_neg hval1, if_pos hv, hv]
  refine ⟨hok, ?_⟩
  intro db1 hdb1
  rw [hok] at hdb1
  injection hdb1 with hdb1
  have hval2 : ¬ (now2 + t2.expiresIn * 1000 ≤ now2) := by omega
  have hver : db1.tlTokenVersion = v + 1 := by rw [← hdb1]
  unfold updateTrueLayerTokens
  rw [if_neg hval2, if_neg (by omega)]

/-- Closed instance of c2_commit_optimistic_concurrency on a fresh user and
two concrete token payloads. -/
theorem c2_commit_optimistic_concurrency_witness :
    updateTrueLayerTokens 0 0 wTokens freshUser
      = .ok { freshUser with
          tlAccessToken := some wTokens.accessToken,
          tlRefreshToken := some wTokens.refreshToken,
          tlExpiresAt := some (0 + wTokens.expiresIn * 1000),
          tlConnected := true,
          tlTokenVersion := 0 + 1 }
    ∧ (∀ db1, updateTrueLayerTokens 0 0 wTokens freshUser = .ok db1 →
        updateTrueLayerTokens 5 0 wTokens db1
          = .error .concurrentModification) :=
  c2_commit_optimistic_concurrency freshUser 0 0 5 wTokens wTokens
    (by decide) (by decide) (by decide)

/-- C5 (code bug): with 2 minutes of validity left the refresh grant is
posted exactly once, but an upstream 400 surfaces the generic "Failed to
refresh TrueLayer tokens" error rather than the "Invalid refresh token"
error, and an upstream 401 likewise surfaces the generic error rather than
the connection-expired one, because refreshTokens wraps the axios error via
createTrueLayerError, which drops the `response` property the catch block
inspects.  With 2 hours of validity the stored pair is returned unchanged
with zero upstream calls, and a successful refresh is one upstream call. -/
theorem c5_refresh_error_classification_dead :
    validateAndRefreshTokens 0 (.httpError 400) (wTLUser (2 * 60 * 1000))
      = .error { message := "Failed to refresh TrueLayer tokens",
                 statusCode := 400, responseStatus := none }
    ∧ validateAndRefreshTokens 0 (.httpError 401) (wTLUser (2 * 60 * 1000))
        = .error { message := "Failed to refresh TrueLayer tokens",
                   statusCode := 401, responseStatus := none }
    ∧ validateAndRefreshTokens 0 (.httpError 400) (wTLUser (2 * 60 * 1000))
        ≠ .error (createTrueLayerError "Invalid refresh token" (some 400))
    ∧ validateAndRefreshTokens 0 (.httpError 400) (wTLUser (2 * 60 * 60 * 1000))
        = .ok ({ accessToken := ['a'], refreshToken := ['r'],
                 expiresIn := 7200 }, 0)
    ∧ validateAndRefreshTokens 0 (.success wTokens) (wTLUser (2 * 60 * 1000))
        = .ok (wTokens, 1) := by decide

/-- C6 (code bug): the retry guard compares the undefined `_retry` of a
fresh request's config against the attempt cap, which is false in
JavaScript, so a first HTTP 500 failure is surfaced immediately even though
the 5xx retry condition holds; only a config whose counter was already
initialized (as the unit tests do) is retried, with backoff 2^n seconds,
never on a 4xx, and never once the cap is reached. -/
theorem c6_retry_counter_never_initialized :
    handleApiError 3
        { cfg := some { retryCount := none }, responseStatus := some 500,
          isTimeout := false }
      = .surfaced false
    ∧ axiosShouldRetry
        { cfg := some { retryCount := none }, responseStatus := some 500,
          isTimeout := false }
        = true
    ∧ handleApiError 3
        { cfg := some { retryCount := some 0 }, responseStatus := some 500,
          isTimeout := false }
        = .retried 1 2000
    ∧ handleApiError 3
        { cfg := some { retryCount := some 1 }, responseStatus := some 500,
          isTimeout := false }
        = .retried 2 4000
    ∧ handleApiError 3
        { cfg := some { retryCount := some 0 }, responseStatus := some 400,
          isTimeout := false }
        = .surfaced false
    ∧ handleApiError 3
        { cfg := some { retryCount := some 3 }, responseStatus := some 500,
          isTimeout := false }
        = .surfaced false
    ∧ handleApiError 3
        { cfg := some { retryCount := some 0 }, responseStatus := some 401,
          isTimeout := false }
        = .surfaced true := by decide

/-- Every serialized ledger step preserves the stored-count invariant: an
issue step never commits anything (it fails at the hashing step, or earlier
at the precheck), the conditional flip keeps the array length and the
count, and cleanup resynchronizes the count downwards. -/
lemma ledgerInv_applyLedgerOp {db : UserDoc} (h : ledgerInv db)
    (op : LedgerOp) : ledgerInv (applyLedgerOp db op) := by
  obtain ⟨h1, h2⟩ := h
  cases op with
  | issue now newId salt name key docCount =>
    simp only [applyLedgerOp]
    cases hres : addApiKey now newId salt name key docCount db with
    | error e => exact ⟨h1, h2⟩
    | ok res =>
      exact absurd hres
        (addApiKey_never_ok now newId salt name key docCount db res)
  | revoke keyId =>
    simp only [applyLedgerOp]
    cases hres : deactivateApiKey keyId db with
    | error e => exact ⟨h1, h2⟩
    | ok res =>
      obtain ⟨info, db2⟩ := res
      unfold deactivateApiKey at hres
      split at hres
      · split at hres
        · injection hres with hpair
          have hsnd := congrArg Prod.snd hpair
          simp only at hsnd
          subst hsnd
          constructor
          · simpa [setInactive_length] using h1
          · exact h2
        · simp at hres
      · simp at hres
  | clean now =>
    simp only [applyLedgerOp]
    unfold preSaveClean
    constructor
    · exact le_refl _
    · calc (db.apiKeys.filter
            (fun k => !keyExpired now k && !keyUnused now k)).length
          ≤ db.apiKeys.length := List.length_filter_le _ _
        _ ≤ db.apiKeyCount := h1
        _ ≤ 5 := h2

/-- The stored-count invariant is preserved along any interleaving of
ledger steps. -/
lemma ledgerInv_foldl :
    ∀ (ops : List LedgerOp) (db : UserDoc), ledgerInv db →
      ledgerInv (ops.foldl applyLedgerOp db)
  | [], _, h => h
  | op :: rest, _, h =>
    ledgerInv_foldl rest _ (ledgerInv_applyLedgerOp h op)

/-- No serialized concurrent issue ever succeeds: each call fails at the
hashing step, leaving the stored document untouched. -/
lemma runConcurrentIssues_eq :
    ∀ (reqs : List IssueReq) (db : UserDoc),
      runConcurrentIssues reqs db = (0, db)
  | [], _ => rfl
  | r :: rest, db => by
    have hres : addApiKey r.now r.newId r.salt r.name r.key 0 db
        = .error .hashFailed :=
      addApiKey_hashFailed r.now r.newId r.salt r.name r.key (by omega) db
    simp only [runConcurrentIssues, hres]
    exact runConcurrentIssues_eq rest db

/-- C1 (code bug): the at-most-5-active invariant does hold along any
interleaving of serialized ledger writes from a fresh user, and an issue
call that reads a count of at least 5 fails with the limit error; but the
conditional insert is dead code: every issue call that passes the stale
precheck fails with the "Failed to hash API key" error (the unawaited
generateKey() Promise is rejected by bcrypt), so 0 of N concurrent issue
calls on a fresh user succeed, not exactly 5. -/
theorem c1_issue_path_dead (ops : List LedgerOp) (reqs : List IssueReq)
    (now : Int) (newId salt : Nat) (name key : JStr) (docCount : Nat)
    (db : UserDoc) (hstale : docCount < 5) (hsync : 5 ≤ db.apiKeyCount) :
    activeCount (ops.foldl applyLedgerOp freshUser) ≤ 5
    ∧ runConcurrentIssues reqs freshUser = (0, freshUser)
    ∧ addApiKey now newId salt name key docCount db = .error .hashFailed
    ∧ addApiKey now newId salt name key db.apiKeyCount db
        = .error .limitReached := by
  refine ⟨?_, runConcurrentIssues_eq reqs freshUser,
    addApiKey_hashFailed now newId salt name key hstale db, ?_⟩
  · have hfresh : ledgerInv freshUser := by
      constructor <;> simp [freshUser]
    have hinv2 := ledgerInv_foldl ops freshUser hfresh
    calc activeCount (ops.foldl applyLedgerOp freshUser)
        ≤ (ops.foldl applyLedgerOp freshUser).apiKeys.length :=
          List.length_filter_le _ _
      _ ≤ (ops.foldl applyLedgerOp freshUser).apiKeyCount := hinv2.1
      _ ≤ 5 := hinv2.2
  · unfold addApiKey
    rw [if_pos hsync]

/-- Closed instance of c1_issue_path_dead: ten concurrent issues on a fresh
user all fail, and a synchronized issue against a user at the limit fails
with the limit error. -/
theorem c1_issue_path_dead_witness :
    activeCount (wOps.foldl applyLedgerOp freshUser) ≤ 5
    ∧ runConcurrentIssues wReqs freshUser = (0, freshUser)
    ∧ addApiKey 0 99 0 sampleName sampleKey 0 wDb5 = .error .hashFailed
    ∧ addApiKey 0 99 0 sampleName sampleKey wDb5.apiKeyCount wDb5
        = .error .limitReached :=
  c1_issue_path_dead wOps wReqs 0 99 0 sampleName sampleKey 0 wDb5
    (by decide) (by decide)

end VoilaPilot
